import Mathlib

/-!
Shallow embedding of the asynchronous email-delivery core of the
EaseEmailNotification service: the intake service
(`app/services/email_sender_service.py`), the email worker
(`app/worker/tasks.py`), the SMTP failure classifier
(`app/worker/smtp_sender.py`, `app/worker/exceptions.py`), the webhook
dispatcher (`app/worker/webhook_dispatcher.py`) and the webhook worker
(`app/worker/webhook_tasks.py`).

Database rows become Lean structures, SQL lookups become `List.find?` over
an explicit `DB` snapshot, time is a `Nat` of seconds, and every external
effect (SMTP outcome, HTTP outcome, broker enqueue success) is an explicit
oracle argument.  Python control flow, including exception dispatch order
and the rule that an exception raised inside an `except` clause is not
caught by a sibling clause of the same `try`, is translated branch by
branch.
-/

namespace EaseEmail

/-- Row of `applications` (the fields the core reads). -/
structure Application where
  id : Nat
  tenant_id : Nat
  api_key : String
  webhook_url : Option String
  webhook_api_key : Option String
  webhook_enabled : Bool
  webhook_events : Option (List String)
  status : String
  deriving Repr, BEq, DecidableEq

/-- Row of `email_services`. -/
structure EmailService where
  id : Nat
  tenant_id : Nat
  name : String
  status : String
  deriving Repr, BEq, DecidableEq

/-- Row of `service_configurations`. -/
structure ServiceConfiguration where
  id : Nat
  email_service_id : Nat
  application_id : Nat
  smtp_configuration_id : Nat
  is_active : Bool
  deriving Repr, BEq, DecidableEq

/-- Row of `smtp_configurations`. -/
structure SMTPConfiguration where
  id : Nat
  host : String
  port : Nat
  username : String
  password_encrypted : String
  use_tls : Bool
  deriving Repr, BEq, DecidableEq

/-- Row of `email_templates`. -/
structure EmailTemplate where
  id : Nat
  tenant_id : Nat
  name : String
  subject_template : String
  body_template : String
  deriving Repr, BEq, DecidableEq

/-- Row of `email_jobs`.  Timestamps are seconds since an arbitrary epoch. -/
structure EmailJob where
  id : Nat
  tenant_id : Nat
  application_id : Nat
  service_id : Nat
  to_email : String
  subject : String
  body : String
  status : String
  sent_at : Option Nat
  processing_started_at : Option Nat
  error_message : Option String
  error_category : Option String
  retry_count : Nat
  max_retries : Nat
  next_retry_at : Option Nat
  webhook_requested : Bool
  deriving Repr, BEq, DecidableEq

/-- Row of `email_logs` (append-only, one per attempt outcome). -/
structure EmailLog where
  job_id : Nat
  status : String
  response_code : Nat
  response_message : Option String
  deriving Repr, BEq, DecidableEq

/-- The JSON body built by `WebhookPayload` in `app/schemas/webhook_schemas.py`. -/
structure WebhookPayload where
  event : String
  timestamp : Nat
  job_id : Nat
  tenant_id : Nat
  application_id : Nat
  service_name : String
  to_email : String
  subject : String
  status : String
  sent_at : Option Nat
  error_category : Option String
  error_message : Option String
  retry_count : Nat
  deriving Repr, BEq, DecidableEq

/-- Row of `webhook_deliveries`. -/
structure WebhookDelivery where
  id : Nat
  email_job_id : Nat
  application_id : Nat
  tenant_id : Nat
  webhook_url : String
  event_type : String
  payload : WebhookPayload
  status : String
  retry_count : Nat
  max_retries : Nat
  next_retry_at : Option Nat
  last_response_code : Option Nat
  last_response_body : Option String
  last_error : Option String
  delivered_at : Option Nat
  deriving Repr, BEq, DecidableEq

/-- Snapshot of the configuration tables the core reads. -/
structure DB where
  applications : List Application
  services : List EmailService
  serviceConfigs : List ServiceConfiguration
  smtpConfigs : List SMTPConfiguration
  templates : List EmailTemplate
  deriving Repr

/-- `select(Application).where(Application.api_key == api_key)` (first row). -/
def findApplicationByApiKey (db : DB) (key : String) : Option Application :=
  db.applications.find? (fun a => a.api_key == key)

/-- `select(EmailService).where(name == service_name, status == "active",
tenant_id == tenant_id)`. -/
def findActiveService (db : DB) (name : String) (tenantId : Nat) : Option EmailService :=
  db.services.find? (fun s => s.name == name && s.status == "active" && s.tenant_id == tenantId)

/-- `select(ServiceConfiguration).where(email_service_id == service.id,
application_id == application.id, is_active == True)`. -/
def findActiveServiceConfig (db : DB) (serviceId applicationId : Nat) :
    Option ServiceConfiguration :=
  db.serviceConfigs.find? (fun c =>
    c.email_service_id == serviceId && c.application_id == applicationId && c.is_active)

/-- `select(SMTPConfiguration).where(SMTPConfiguration.id == id)`. -/
def findSmtpConfigById (db : DB) (id : Nat) : Option SMTPConfiguration :=
  db.smtpConfigs.find? (fun c => c.id == id)

/-- `select(EmailTemplate).where(name == template_name, tenant_id == tenant_id)`. -/
def findTemplate (db : DB) (name : String) (tenantId : Nat) : Option EmailTemplate :=
  db.templates.find? (fun t => t.name == name && t.tenant_id == tenantId)

/-- `select(Application).where(Application.id == id)`. -/
def findApplicationById (db : DB) (id : Nat) : Option Application :=
  db.applications.find? (fun a => a.id == id)

/-- `select(EmailService).where(EmailService.id == id)`. -/
def findServiceById (db : DB) (id : Nat) : Option EmailService :=
  db.services.find? (fun s => s.id == id)

/-- Python truthiness of an optional string: `None` and `""` are falsy. -/
def truthyStr : Option String → Option String
  | none => none
  | some s => if s == "" then none else some s

/-! ## SMTP sender and failure classification (`app/worker/smtp_sender.py`) -/

/-- `PERMANENT_SMTP_CODES` from `app/worker/exceptions.py`. -/
def PERMANENT_SMTP_CODES : List Nat := [550, 551, 552, 553, 554]

/-- `TEMPORARY_SMTP_CODES` from `app/worker/exceptions.py`. -/
def TEMPORARY_SMTP_CODES : List Nat := [421, 450, 451, 452]

/-- The exception, if any, raised by the `smtplib` calls inside the `try`
block of `send_via_smtp`.  `authenticationError` is kept separate from
`responseException` because `smtplib.SMTPAuthenticationError` is matched by
the earlier `except smtplib.SMTPAuthenticationError` clause even though it
subclasses `SMTPResponseException`. -/
inductive SmtpExc
  | recipientsRefused (msg : String)
  | authenticationError (code : Nat) (msg : String)
  | responseException (code : Nat) (msg : String)
  | socketOrConnectionError (msg : String)
  | otherException (msg : String)
  deriving Repr, BEq, DecidableEq

/-- Outcome of the raw SMTP dialogue: the mail was accepted, or one of the
exceptions above was raised. -/
inductive SmtpAttempt
  | delivered
  | raised (e : SmtpExc)
  deriving Repr, BEq, DecidableEq

/-- Result of `send_via_smtp`: returns normally, or raises a classified
`PermanentFailure` / `TemporaryFailure`. -/
inductive SendResult
  | ok
  | permanentFailure (msg : String)
  | temporaryFailure (msg : String)
  deriving Repr, BEq, DecidableEq

/-- True iff the result is a raised `PermanentFailure`. -/
def SendResult.isPermanentFailure : SendResult → Bool
  | .permanentFailure _ => true
  | _ => false

/-- True iff the result is a raised `TemporaryFailure`. -/
def SendResult.isTemporaryFailure : SendResult → Bool
  | .temporaryFailure _ => true
  | _ => false

/-- The `except` cascade of `send_via_smtp` (lines 88-119), clause by clause
in source order. -/
def classifySmtpAttempt : SmtpAttempt → SendResult
  | .delivered => .ok
  | .raised (.recipientsRefused m) => .permanentFailure ("Recipient refused: " ++ m)
  | .raised (.authenticationError _ m) => .permanentFailure ("Authentication failed: " ++ m)
  | .raised (.responseException code m) =>
      if code ∈ PERMANENT_SMTP_CODES then
        .permanentFailure ("SMTP " ++ toString code ++ ": " ++ m)
      else if code ∈ TEMPORARY_SMTP_CODES then
        .temporaryFailure ("SMTP " ++ toString code ++ ": " ++ m)
      else
        .temporaryFailure ("SMTP " ++ toString code ++ ": " ++ m)
  | .raised (.socketOrConnectionError m) => .temporaryFailure ("Connection error: " ++ m)
  | .raised (.otherException m) => .temporaryFailure ("Unexpected error: " ++ m)

/-- `_get_smtp_config`: EmailJob → ServiceConfiguration → SMTPConfiguration. -/
def _get_smtp_config (db : DB) (job : EmailJob) : Option SMTPConfiguration :=
  match findActiveServiceConfig db job.service_id job.application_id with
  | none => none
  | some sc => findSmtpConfigById db sc.smtp_configuration_id

/-- `send_via_smtp(job, db)`: resolve the SMTP configuration (missing one is a
`PermanentFailure`), decrypt the password (failure is a `PermanentFailure`),
then classify the outcome of the SMTP dialogue.  `decryptOk` and `attempt`
are the oracles for the two external effects. -/
def send_via_smtp (db : DB) (job : EmailJob) (decryptOk : Bool) (attempt : SmtpAttempt) :
    SendResult :=
  match _get_smtp_config db job with
  | none => .permanentFailure "No SMTP configuration found for this job"
  | some _config =>
    if decryptOk then classifySmtpAttempt attempt
    else .permanentFailure "Password decryption failed"

/-! ## Intake (`EmailSenderService.validate_and_queue`) -/

/-- Store/broker effects of one intake call, in execution order:
`db.add(job)`, `db.flush()`, `send_email_task.delay(job_id)`, `db.commit()`. -/
inductive IntakeEvent
  | insertJob (job : EmailJob)
  | flushJob
  | enqueueSendEmail (jobId : Nat)
  | commitTx
  deriving Repr, BEq, DecidableEq

/-- True for the broker-enqueue event. -/
def IntakeEvent.isEnqueue : IntakeEvent → Bool
  | .enqueueSendEmail _ => true
  | _ => false

/-- True iff a `commitTx` occurs strictly before the first enqueue event of
the trace. -/
def rowCommittedBeforeEnqueue (tr : List IntakeEvent) : Bool :=
  (tr.takeWhile (fun e => !e.isEnqueue)).contains .commitTx

/-- Result of one `validate_and_queue` call: the HTTP response
(`Except (status, detail) (job_id, status-string)`), the in-session job row
if one was created, and the ordered store/broker effects. -/
structure IntakeResult where
  response : Except (Nat × String) (Nat × String)
  job : Option EmailJob
  trace : List IntakeEvent
  deriving Repr

/-- The `EmailJob(...)` constructed at step 6 of `validate_and_queue`
(column defaults from `app/models/all_models.py`). -/
def newQueuedJob (newJobId tenantId applicationId serviceId : Nat)
    (to_email subject body : String) : EmailJob :=
  { id := newJobId
    tenant_id := tenantId
    application_id := applicationId
    service_id := serviceId
    to_email := to_email
    subject := subject
    body := body
    status := "queued"
    sent_at := none
    processing_started_at := none
    error_message := none
    error_category := none
    retry_count := 0
    max_retries := 3
    next_retry_at := none
    webhook_requested := false }

/-- `EmailSenderService.validate_and_queue`.  `render` is the Jinja2 oracle
(template text ↦ rendered text or a raised rendering exception), `newJobId`
the id the store assigns at flush, `enqueueOk` whether
`send_email_task.delay` succeeds.  Mirrors the source order: add, flush,
enqueue, commit. -/
def validate_and_queue (db : DB) (api_key service_name template_name to_email : String)
    (render : String → Except String String) (newJobId : Nat) (enqueueOk : Bool) :
    IntakeResult :=
  match findApplicationByApiKey db api_key with
  | none => ⟨.error (401, "Invalid API key"), none, []⟩
  | some application =>
    let tenant_id := application.tenant_id
    match findActiveService db service_name tenant_id with
    | none => ⟨.error (400, "Invalid email service"), none, []⟩
    | some service =>
      match findActiveServiceConfig db service.id application.id with
      | none => ⟨.error (400, "No active SMTP configuration"), none, []⟩
      | some config =>
        match findSmtpConfigById db config.smtp_configuration_id with
        | none => ⟨.error (400, "SMTP account details not found"), none, []⟩
        | some _smtp =>
          match findTemplate db template_name tenant_id with
          | none => ⟨.error (404, "Template not found"), none, []⟩
          | some template =>
            match render template.subject_template, render template.body_template with
            | .error e, _ => ⟨.error (400, "Template rendering error: " ++ e), none, []⟩
            | .ok _, .error e => ⟨.error (400, "Template rendering error: " ++ e), none, []⟩
            | .ok rendered_subject, .ok rendered_body =>
              let job := newQueuedJob newJobId tenant_id application.id service.id
                to_email rendered_subject rendered_body
              if enqueueOk then
                ⟨.ok (newJobId, "queued"), some job,
                 [.insertJob job, .flushJob, .enqueueSendEmail newJobId, .commitTx]⟩
              else
                let failedJob := { job with
                  status := "failed", error_message := some "Failed to enqueue" }
                ⟨.error (500, "Failed to queue email"), some failedJob,
                 [.insertJob job, .flushJob, .commitTx]⟩

/-! ## Webhook dispatcher (`queue_webhook_if_configured`) -/

/-- `queue_webhook_if_configured(db, job, final_status, error_info)`.
Returns the `WebhookDelivery` row it inserts (if any) and the job with
`webhook_requested` possibly set.  `now` is the payload timestamp,
`newDeliveryId` the id the store assigns at flush, `enqueueOk` whether
`deliver_webhook_task.delay` succeeds (on failure the delivery is marked
failed but the job is untouched). -/
def queue_webhook_if_configured (db : DB) (now newDeliveryId : Nat) (enqueueOk : Bool)
    (job : EmailJob) (final_status : String) (error_info : Option (String × String)) :
    Option WebhookDelivery × EmailJob :=
  match findApplicationById db job.application_id with
  | none => (none, job)
  | some application =>
    if !application.webhook_enabled then (none, job)
    else
      match truthyStr application.webhook_url with
      | none => (none, job)
      | some url =>
        let event_type := if final_status == "sent" then "email.sent" else "email.failed"
        let allowed_events := application.webhook_events.getD []
        if !(allowed_events.contains event_type) then (none, job)
        else
          let service_name :=
            match findServiceById db job.service_id with
            | some s => s.name
            | none => "Unknown"
          let payload : WebhookPayload :=
            { event := event_type
              timestamp := now
              job_id := job.id
              tenant_id := job.tenant_id
              application_id := job.application_id
              service_name := service_name
              to_email := job.to_email
              subject := job.subject
              status := final_status
              sent_at := job.sent_at
              error_category := error_info.map (fun i => i.1)
              error_message := error_info.map (fun i => i.2)
              retry_count := job.retry_count }
          let delivery : WebhookDelivery :=
            { id := newDeliveryId
              email_job_id := job.id
              application_id := job.application_id
              tenant_id := job.tenant_id
              webhook_url := url
              event_type := event_type
              payload := payload
              status := "pending"
              retry_count := 0
              max_retries := 3
              next_retry_at := none
              last_response_code := none
              last_response_body := none
              last_error := none
              delivered_at := none }
          let job := { job with webhook_requested := true }
          if enqueueOk then (some delivery, job)
          else (some { delivery with
                        status := "failed", last_error := some "Failed to queue" }, job)

/-! ## Email worker (`send_email_task`) -/

/-- Celery task context: `self.request.retries` and `self.max_retries`
(3 from the decorator), plus the wall clock. -/
structure TaskCtx where
  retries : Nat
  max_retries : Nat
  now : Nat
  deriving Repr, BEq, DecidableEq

/-- Oracles for one task execution: the configuration snapshot, the two
`send_via_smtp` effects, an optional unexpected exception in the
try block of the task (the `except Exception` path), and the dispatcher arguments. -/
structure WorkerEnv where
  db : DB
  decryptOk : Bool
  smtp : SmtpAttempt
  unexpectedExc : Option String
  newDeliveryId : Nat
  webhookEnqueueOk : Bool
  deriving Repr

/-- What one `send_email_task` execution did: the final in-session job row,
whether the SMTP sender was invoked, the `EmailLog` rows added, the
`WebhookDelivery` row inserted (if any), whether the task re-raised for
broker redelivery, and the job snapshots passed to `db.commit()` in order. -/
structure TaskOut where
  job : Option EmailJob
  smtpInvoked : Bool
  logs : List EmailLog
  delivery : Option WebhookDelivery
  reraised : Bool
  commits : List EmailJob
  deriving Repr

/-- An early `return` before the job row is mutated (job missing/locked,
idempotency gate, stale-processing gate). -/
def TaskOut.earlyReturn (j : Option EmailJob) : TaskOut :=
  { job := j, smtpInvoked := false, logs := [], delivery := none,
    reraised := false, commits := [] }

/-- The stale-processing gate (tasks.py lines 83-87): still `processing`
and started less than 2 minutes ago. -/
def staleProcessingGuard (ctx : TaskCtx) (j : EmailJob) : Bool :=
  j.status == "processing" &&
    (match j.processing_started_at with
     | some t => ctx.now - t < 120
     | none => false)

/-- Step 3 of the task: `status="processing"`, `processing_started_at=now`. -/
def markProcessing (ctx : TaskCtx) (job : EmailJob) : EmailJob :=
  { job with status := "processing", processing_started_at := some ctx.now }

/-- Outcome of the try block of the task around `send_via_smtp`. -/
inductive SendOutcome
  | sent
  | permanentFailure (msg : String)
  | temporaryFailure (msg : String)
  | unexpectedError (msg : String)
  deriving Repr, BEq, DecidableEq

/-- Result of the `try` block: an unexpected exception (anything that is not
a `PermanentFailure`/`TemporaryFailure`, caught by `except Exception`), or
the classified result of `send_via_smtp`. -/
def sendAttemptOutcome (env : WorkerEnv) (job : EmailJob) : SendOutcome :=
  match env.unexpectedExc with
  | some m => .unexpectedError m
  | none =>
    match send_via_smtp env.db job env.decryptOk env.smtp with
    | .ok => .sent
    | .permanentFailure m => .permanentFailure m
    | .temporaryFailure m => .temporaryFailure m

/-- Steps 6-8 of the task: append the `EmailLog` row, invoke the webhook
dispatcher when the final status is terminal, and commit.  `firstCommit` is
the job snapshot committed at step 3. -/
def finishJob (ctx : TaskCtx) (env : WorkerEnv) (firstCommit job : EmailJob)
    (final_status : String) (error_info : Option (String × String)) : TaskOut :=
  let log : EmailLog :=
    { job_id := job.id
      status := job.status
      response_code := if final_status == "sent" then 200 else 500
      response_message := if final_status == "sent" then some "OK" else job.error_message }
  let dispatched :=
    if final_status == "sent" || final_status == "failed" then
      queue_webhook_if_configured env.db ctx.now env.newDeliveryId env.webhookEnqueueOk
        job final_status error_info
    else (none, job)
  { job := some dispatched.2
    smtpInvoked := true
    logs := [log]
    delivery := dispatched.1
    reraised := false
    commits := [firstCommit, dispatched.2] }

/-- `send_email_task(self, job_id)`, tasks.py lines 38-239.  `jobRow` is the
result of the `SELECT ... FOR UPDATE SKIP LOCKED` (none when the row is
missing or locked elsewhere). -/
def send_email_task (ctx : TaskCtx) (jobRow : Option EmailJob) (env : WorkerEnv) : TaskOut :=
  match jobRow with
  | none => TaskOut.earlyReturn none
  | some job =>
    if job.sent_at.isSome then TaskOut.earlyReturn (some job)
    else if staleProcessingGuard ctx job then TaskOut.earlyReturn (some job)
    else
      let job1 := markProcessing ctx job
      match sendAttemptOutcome env job1 with
      | .sent =>
        finishJob ctx env job1
          { job1 with status := "sent", sent_at := some ctx.now } "sent" none
      | .permanentFailure m =>
        finishJob ctx env job1
          { job1 with
            status := "failed"
            error_message := some m
            error_category := some "permanent" }
          "failed" (some ("permanent", m))
      | .temporaryFailure m =>
        if ctx.max_retries ≤ ctx.retries then
          finishJob ctx env job1
            { job1 with
              status := "failed"
              error_message := some ("Max retries exceeded: " ++ m)
              error_category := some "temporary" }
            "failed" (some ("temporary", m))
        else
          let job2 := { job1 with
            status := "retry_pending"
            error_message := some m
            retry_count := job1.retry_count + 1
            next_retry_at := some (ctx.now + 60 * 2 ^ ctx.retries) }
          { job := some job2, smtpInvoked := true, logs := [], delivery := none,
            reraised := true, commits := [job1, job2] }
      | .unexpectedError m =>
        finishJob ctx env job1
          { job1 with
            status := "failed"
            error_message := some ("Unexpected error: " ++ m)
            error_category := some "system" }
          "failed" (some ("system", m))

/-! ## Webhook worker (`deliver_webhook_task`) -/

/-- `WEBHOOK_TIMEOUT` from `app/worker/webhook_tasks.py`. -/
def WEBHOOK_TIMEOUT : Nat := 10

/-- `WEBHOOK_MAX_RETRIES` from `app/worker/webhook_tasks.py`. -/
def WEBHOOK_MAX_RETRIES : Nat := 3

/-- Outcome of the `httpx` POST inside the try block of the task: a response,
an `httpx.TimeoutException`, another `httpx.RequestError`, or any other
exception. -/
inductive HttpOutcome
  | response (code : Nat) (body : String)
  | timeoutExc (msg : String)
  | requestErrorExc (msg : String)
  | otherExc (msg : String)
  deriving Repr, BEq, DecidableEq

/-- The outbound POST the task attempted: target URL, JSON body, and the
`X-API-Key` header value if one was attached. -/
structure PostRequest where
  url : String
  payload : WebhookPayload
  apiKeyHeader : Option String
  deriving Repr, BEq, DecidableEq

/-- What one `deliver_webhook_task` execution did: the final in-session
delivery row, the POST it attempted (if it got that far), whether an
exception escaped the task (a `raise` for broker redelivery), and whether
the final delivery row was committed. -/
structure WebhookTaskOut where
  delivery : Option WebhookDelivery
  posted : Option PostRequest
  reraised : Bool
  committed : Bool
  deriving Repr, BEq, DecidableEq

/-- The `except WebhookDeliveryError` clause (webhook_tasks.py lines
126-154): increment `retry_count`, then either mark failed (retries
exhausted, ack) or set `next_retry_at` and re-raise. -/
def handleWebhookDeliveryError (now : Nat) (d : WebhookDelivery) :
    WebhookDelivery × Bool :=
  let d1 := { d with retry_count := d.retry_count + 1 }
  if WEBHOOK_MAX_RETRIES ≤ d1.retry_count then
    ({ d1 with status := "failed" }, false)
  else
    ({ d1 with next_retry_at := some (now + 30 * 2 ^ d1.retry_count) }, true)

/-- `deliver_webhook_task(self, delivery_id)`, webhook_tasks.py lines
32-161.  `deliveryRow` is the loaded `WebhookDelivery` row, `application`
the `Application` row loaded at delivery time, `http` the oracle for the
POST.  Python exception dispatch is translated exactly: the
`WebhookDeliveryError` raised by the non-2xx branch of the `try` body is
caught by the `except WebhookDeliveryError` clause, but the
`WebhookDeliveryError` raised inside the `except httpx.TimeoutException`
and `except httpx.RequestError` clauses escapes the whole `try` statement
uncaught. -/
def deliver_webhook_task (now : Nat) (deliveryRow : Option WebhookDelivery)
    (application : Option Application) (http : HttpOutcome) : WebhookTaskOut :=
  match deliveryRow with
  | none => ⟨none, none, false, false⟩
  | some delivery =>
    if delivery.status == "delivered" then ⟨some delivery, none, false, false⟩
    else
      let api_key : Option String :=
        match application with
        | none => none
        | some app => truthyStr app.webhook_api_key
      let post : PostRequest := ⟨delivery.webhook_url, delivery.payload, api_key⟩
      match http with
      | .response code body =>
        let d1 := { delivery with
          last_response_code := some code
          last_response_body := some (body.take 1024) }
        if 200 ≤ code ∧ code ≤ 299 then
          ⟨some { d1 with status := "delivered", delivered_at := some now },
           some post, false, true⟩
        else
          let handled := handleWebhookDeliveryError now d1
          ⟨some handled.1, some post, handled.2, true⟩
      | .timeoutExc m =>
        ⟨some { delivery with last_error := some ("Timeout: " ++ m) },
         some post, true, true⟩
      | .requestErrorExc m =>
        ⟨some { delivery with last_error := some ("Connection error: " ++ m) },
         some post, true, true⟩
      | .otherExc m =>
        ⟨some { delivery with
                 status := "failed", last_error := some ("Unexpected: " ++ m) },
         some post, false, true⟩

/-! ## Concrete fixtures used by witnesses and counterexamples -/

/-- A tenant-1 application with webhooks enabled for both event types. -/
def sampleApp : Application :=
  { id := 1
    tenant_id := 1
    api_key := "key-1"
    webhook_url := some "https://hooks.example.com/w"
    webhook_api_key := some "whk-1"
    webhook_enabled := true
    webhook_events := some ["email.sent", "email.failed"]
    status := "active" }

/-- An active email service of tenant 1. -/
def sampleService : EmailService :=
  { id := 2, tenant_id := 1, name := "welcome-svc", status := "active" }

/-- The active service configuration linking service 2, application 1 and
SMTP configuration 4. -/
def sampleServiceConfig : ServiceConfiguration :=
  { id := 3, email_service_id := 2, application_id := 1,
    smtp_configuration_id := 4, is_active := true }

/-- An SMTP account row. -/
def sampleSmtp : SMTPConfiguration :=
  { id := 4, host := "smtp.example.com", port := 587, username := "mailer",
    password_encrypted := "enc", use_tls := true }

/-- A template of tenant 1 named `welcome`. -/
def sampleTemplate : EmailTemplate :=
  { id := 5, tenant_id := 1, name := "welcome",
    subject_template := "Hi", body_template := "Hello" }

/-- A configuration store holding the rows above. -/
def sampleDB : DB :=
  { applications := [sampleApp]
    services := [sampleService]
    serviceConfigs := [sampleServiceConfig]
    smtpConfigs := [sampleSmtp]
    templates := [sampleTemplate] }

/-- A store with no rows at all. -/
def emptyDB : DB := ⟨[], [], [], [], []⟩

/-- A freshly queued job as the intake creates it. -/
def sampleJob : EmailJob :=
  newQueuedJob 10 1 1 2 "u@example.com" "Hi" "Hello"

/-- First-attempt task context at time 1000. -/
def sampleCtx : TaskCtx := { retries := 0, max_retries := 3, now := 1000 }

/-- A worker environment where the SMTP dialogue succeeds and the webhook
enqueue succeeds. -/
def sampleEnv : WorkerEnv :=
  { db := sampleDB
    decryptOk := true
    smtp := .delivered
    unexpectedExc := none
    newDeliveryId := 20
    webhookEnqueueOk := true }

/-- A rendering oracle that always succeeds, returning the template text. -/
def renderOk : String → Except String String := fun s => .ok s

/-! ## C6: SMTP failure classification -/

/-- C6.  SMTP failure classification: a recipient-refused or authentication
error raises `PermanentFailure`; a reply with code in 550,551,552,553,554
raises `PermanentFailure`; a reply with code in 421,450,451,452 raises
`TemporaryFailure`; any other reply code raises `TemporaryFailure`; and
timeout, connection, or socket errors raise `TemporaryFailure`
(`send_via_smtp`, lines 88-119). -/
theorem smtp_failure_classification (c : Nat) (m : String) :
    (classifySmtpAttempt (.raised (.recipientsRefused m))).isPermanentFailure = true ∧
    (∀ code, (classifySmtpAttempt
        (.raised (.authenticationError code m))).isPermanentFailure = true) ∧
    (c ∈ PERMANENT_SMTP_CODES →
      (classifySmtpAttempt (.raised (.responseException c m))).isPermanentFailure = true) ∧
    (c ∈ TEMPORARY_SMTP_CODES →
      (classifySmtpAttempt (.raised (.responseException c m))).isTemporaryFailure = true) ∧
    (c ∉ PERMANENT_SMTP_CODES →
      (classifySmtpAttempt (.raised (.responseException c m))).isTemporaryFailure = true) ∧
    (classifySmtpAttempt (.raised (.socketOrConnectionError m))).isTemporaryFailure = true ∧
    (classifySmtpAttempt (.raised (.otherException m))).isTemporaryFailure = true := by
  refine ⟨rfl, fun _ => rfl, ?_, ?_, ?_, rfl, rfl⟩
  · intro h
    simp [classifySmtpAttempt, h, SendResult.isPermanentFailure]
  · intro h
    have hnp : c ∉ PERMANENT_SMTP_CODES := by
      simp only [TEMPORARY_SMTP_CODES, List.mem_cons, List.not_mem_nil, or_false] at h
      rcases h with rfl | rfl | rfl | rfl <;> decide
    simp [classifySmtpAttempt, hnp, h, SendResult.isTemporaryFailure]
  · intro h
    by_cases h2 : c ∈ TEMPORARY_SMTP_CODES <;>
      simp [classifySmtpAttempt, h, h2, SendResult.isTemporaryFailure]

/-- Witness for C6 at concrete reply codes 550, 421 and 530. -/
theorem smtp_failure_classification_witness :
    (classifySmtpAttempt (.raised (.responseException 550 "boom"))).isPermanentFailure
      = true ∧
    (classifySmtpAttempt (.raised (.responseException 421 "boom"))).isTemporaryFailure
      = true ∧
    (classifySmtpAttempt (.raised (.responseException 530 "boom"))).isTemporaryFailure
      = true :=
  ⟨(smtp_failure_classification 550 "boom").2.2.1 (by decide),
   (smtp_failure_classification 421 "boom").2.2.2.1 (by decide),
   (smtp_failure_classification 530 "boom").2.2.2.2.1 (by decide)⟩

/-! ## Helper lemmas about the email worker -/

/-- If `sent_at` is set, the task takes the idempotency-gate early return. -/
lemma send_email_task_sent_at_gate (ctx : TaskCtx) (env : WorkerEnv) (j : EmailJob)
    (h : j.sent_at.isSome = true) :
    send_email_task ctx (some j) env = TaskOut.earlyReturn (some j) := by
  simp [send_email_task, h]

/-- The dispatcher either leaves the job alone or only sets
`webhook_requested`, and any delivery row it inserts carries the event type
computed from `final_status`, with status `pending` unless the broker
enqueue failed. -/
lemma queue_webhook_spec (db : DB) (now nid : Nat) (ok : Bool) (job : EmailJob)
    (fs : String) (ei : Option (String × String)) :
    ((queue_webhook_if_configured db now nid ok job fs ei).2 = job ∨
     (queue_webhook_if_configured db now nid ok job fs ei).2 =
       { job with webhook_requested := true }) ∧
    (∀ d, (queue_webhook_if_configured db now nid ok job fs ei).1 = some d →
      d.event_type = (if fs == "sent" then "email.sent" else "email.failed")) := by
  constructor
  · unfold queue_webhook_if_configured
    dsimp only
    repeat' split
    all_goals simp
  · intro d h
    unfold queue_webhook_if_configured at h
    dsimp only at h
    repeat' split at h
    all_goals try simp_all
    all_goals (subst h; rfl)

/-- Steps 6-8 of the task: the final job differs from the finalized job at
most in `webhook_requested`, the task does not re-raise, and a delivery is
only inserted for a terminal `final_status` and carries the matching event
type. -/
lemma finishJob_spec (ctx : TaskCtx) (env : WorkerEnv) (fc job : EmailJob) (fs : String)
    (ei : Option (String × String)) :
    (∃ j2, (finishJob ctx env fc job fs ei).job = some j2 ∧
      (j2 = job ∨ j2 = { job with webhook_requested := true })) ∧
    (finishJob ctx env fc job fs ei).reraised = false ∧
    (∀ d, (finishJob ctx env fc job fs ei).delivery = some d →
      (fs = "sent" ∨ fs = "failed") ∧
      d.event_type = (if fs == "sent" then "email.sent" else "email.failed")) := by
  obtain ⟨hjob, hdel⟩ :=
    queue_webhook_spec env.db ctx.now env.newDeliveryId env.webhookEnqueueOk job fs ei
  unfold finishJob
  dsimp only
  by_cases hfs : (fs == "sent" || fs == "failed") = true
  · rw [if_pos hfs]
    refine ⟨⟨_, rfl, hjob⟩, rfl, fun d h => ⟨?_, hdel d h⟩⟩
    rcases Bool.or_eq_true_iff.mp hfs with h1 | h1
    · exact Or.inl (by simpa using h1)
    · exact Or.inr (by simpa using h1)
  · rw [if_neg hfs]
    exact ⟨⟨job, rfl, Or.inl rfl⟩, rfl, fun d h => by simp at h⟩

/-! ## C1: at-most-one delivery (`sent_at` idempotency gate) -/

/-- C1.  If `sent_at` is set on the job row, any execution of
`send_email_task` for it returns at the idempotency gate (tasks.py lines
78-80): the SMTP sender is never invoked, the job row is unchanged, no log
or webhook-delivery row is added, nothing is committed, and the task does
not re-raise — for every task context and environment, hence under
arbitrary broker redelivery. -/
theorem sent_at_idempotency_gate (ctx : TaskCtx) (env : WorkerEnv) (j : EmailJob)
    (h : j.sent_at.isSome = true) :
    (send_email_task ctx (some j) env).smtpInvoked = false ∧
    (send_email_task ctx (some j) env).job = some j ∧
    (send_email_task ctx (some j) env).logs = [] ∧
    (send_email_task ctx (some j) env).delivery = none ∧
    (send_email_task ctx (some j) env).reraised = false ∧
    (send_email_task ctx (some j) env).commits = [] := by
  rw [send_email_task_sent_at_gate ctx env j h]
  exact ⟨rfl, rfl, rfl, rfl, rfl, rfl⟩

/-- A job already delivered at time 500. -/
def sentJob : EmailJob := { sampleJob with status := "sent", sent_at := some 500 }

/-- Witness for C1: the gate fires on a concrete sent job. -/
theorem sent_at_idempotency_gate_witness :
    sentJob.sent_at.isSome = true ∧
    (send_email_task sampleCtx (some sentJob) sampleEnv).smtpInvoked = false ∧
    (send_email_task sampleCtx (some sentJob) sampleEnv).job = some sentJob :=
  ⟨rfl, (sent_at_idempotency_gate sampleCtx sampleEnv sentJob rfl).1,
    (sent_at_idempotency_gate sampleCtx sampleEnv sentJob rfl).2.1⟩

/-! ## C2: terminal monotonicity -/

/-- A job the worker marked permanently failed: `sent_at` is still null. -/
def permFailedJob : EmailJob :=
  { sampleJob with
    status := "failed"
    error_category := some "permanent"
    error_message := some "SMTP 550: mailbox unavailable" }

/-- C2 counterexample.  The idempotency gate checks only `sent_at`
(tasks.py line 78), so a redelivered task for a job whose status is
`failed` (with `sent_at` null) passes both gates, re-enters `processing`,
and here ends with status `sent`: `failed` is not terminal under broker
redelivery. -/
theorem failed_job_reprocessed_counterexample :
    permFailedJob.status = "failed" ∧ permFailedJob.sent_at = none ∧
    ∃ j, (send_email_task sampleCtx (some permFailedJob) sampleEnv).job = some j ∧
      j.status = "sent" :=
  ⟨rfl, rfl, ⟨_, rfl, rfl⟩⟩

/-- C2 amended.  From any job state satisfying the reachable-state
invariant that status `sent` has `sent_at` set (the worker establishes
both together, tasks.py lines 108-109), a task execution never moves a job
out of status `sent` — it leaves a sent job entirely unchanged — and it
preserves the invariant.  Status `failed`, however, is not terminal: a
redelivered task re-processes a failed job (see the counterexample). -/
theorem sent_status_terminal_amended (ctx : TaskCtx) (env : WorkerEnv) (j j' : EmailJob)
    (hinv : j.status = "sent" → j.sent_at.isSome = true)
    (hout : (send_email_task ctx (some j) env).job = some j') :
    (j.status = "sent" → j' = j) ∧
    (j'.status = "sent" → j'.sent_at.isSome = true) := by
  by_cases hs : j.sent_at.isSome = true
  · rw [send_email_task_sent_at_gate ctx env j hs] at hout
    have hj : j = j' := by simpa [TaskOut.earlyReturn] using hout
    subst hj
    exact ⟨fun _ => rfl, hinv⟩
  · have hs0 : j.sent_at.isSome = false := eq_false_of_ne_true hs
    refine ⟨fun h => absurd (hinv h) hs, ?_⟩
    intro hsent
    by_cases hg : staleProcessingGuard ctx j = true
    · have hj : j = j' := by
        simpa [send_email_task, hs0, hg, TaskOut.earlyReturn] using hout
      subst hj
      exact hinv hsent
    · have hg0 : staleProcessingGuard ctx j = false := eq_false_of_ne_true hg
      cases ho : sendAttemptOutcome env (markProcessing ctx j) with
      | sent =>
        simp only [send_email_task, hs0, Bool.false_eq_true, if_false, hg0, ho] at hout
        obtain ⟨⟨j2, hj2, hcase⟩, -, -⟩ := finishJob_spec ctx env (markProcessing ctx j)
          { markProcessing ctx j with status := "sent", sent_at := some ctx.now } "sent" none
        rw [hj2] at hout
        injection hout with hout
        subst hout
        rcases hcase with h | h <;> subst h <;> rfl
      | permanentFailure m =>
        simp only [send_email_task, hs0, Bool.false_eq_true, if_false, hg0, ho] at hout
        obtain ⟨⟨j2, hj2, hcase⟩, -, -⟩ := finishJob_spec ctx env (markProcessing ctx j)
          { markProcessing ctx j with
            status := "failed"
            error_message := some m
            error_category := some "permanent" }
          "failed" (some ("permanent", m))
        rw [hj2] at hout
        injection hout with hout
        subst hout
        rcases hcase with h | h <;> subst h <;> simp_all
      | temporaryFailure m =>
        by_cases hr : ctx.max_retries ≤ ctx.retries
        · simp only [send_email_task, hs0, Bool.false_eq_true, if_false, hg0, ho,
            if_pos hr] at hout
          obtain ⟨⟨j2, hj2, hcase⟩, -, -⟩ := finishJob_spec ctx env (markProcessing ctx j)
            { markProcessing ctx j with
              status := "failed"
              error_message := some ("Max retries exceeded: " ++ m)
              error_category := some "temporary" }
            "failed" (some ("temporary", m))
          rw [hj2] at hout
          injection hout with hout
          subst hout
          rcases hcase with h | h <;> subst h <;> simp_all
        · simp only [send_email_task, hs0, Bool.false_eq_true, if_false, hg0, ho,
            if_neg hr] at hout
          injection hout with hout
          subst hout
          simp_all
      | unexpectedError m =>
        simp only [send_email_task, hs0, Bool.false_eq_true, if_false, hg0, ho] at hout
        obtain ⟨⟨j2, hj2, hcase⟩, -, -⟩ := finishJob_spec ctx env (markProcessing ctx j)
          { markProcessing ctx j with
            status := "failed"
            error_message := some ("Unexpected error: " ++ m)
            error_category := some "system" }
          "failed" (some ("system", m))
        rw [hj2] at hout
        injection hout with hout
        subst hout
        rcases hcase with h | h <;> subst h <;> simp_all

/-- Witness for C2 amended at a concrete sent job. -/
theorem sent_status_terminal_amended_witness :
    (sentJob.status = "sent" → sentJob = sentJob) ∧
    (sentJob.status = "sent" → sentJob.sent_at.isSome = true) :=
  sent_status_terminal_amended sampleCtx sampleEnv sentJob sentJob (fun _ => rfl) rfl

/-! ## C5: temporary-failure retry policy -/

/-- C5.  When the send raises `TemporaryFailure` (tasks.py lines 147-194):
if the attempt number `self.request.retries` is below `self.max_retries`,
the task increments `retry_count`, sets status `retry_pending`, sets
`next_retry_at = now + 60·2^retries`, commits that state, and re-raises
for broker redelivery (adding no log or webhook row); if retries are
exhausted it marks the job `failed` with `error_category = "temporary"`
and does not re-raise. -/
theorem temporary_failure_retry_policy (ctx : TaskCtx) (env : WorkerEnv) (j : EmailJob)
    (m : String)
    (hs : j.sent_at.isSome = false)
    (hg : staleProcessingGuard ctx j = false)
    (ho : sendAttemptOutcome env (markProcessing ctx j) = .temporaryFailure m) :
    (ctx.retries < ctx.max_retries →
      (send_email_task ctx (some j) env).job =
        some { markProcessing ctx j with
               status := "retry_pending"
               error_message := some m
               retry_count := j.retry_count + 1
               next_retry_at := some (ctx.now + 60 * 2 ^ ctx.retries) } ∧
      (send_email_task ctx (some j) env).reraised = true ∧
      (send_email_task ctx (some j) env).commits =
        [markProcessing ctx j,
         { markProcessing ctx j with
           status := "retry_pending"
           error_message := some m
           retry_count := j.retry_count + 1
           next_retry_at := some (ctx.now + 60 * 2 ^ ctx.retries) }] ∧
      (send_email_task ctx (some j) env).delivery = none ∧
      (send_email_task ctx (some j) env).logs = []) ∧
    (ctx.max_retries ≤ ctx.retries →
      ∃ j', (send_email_task ctx (some j) env).job = some j' ∧
        j'.status = "failed" ∧
        j'.error_category = some "temporary" ∧
        j'.error_message = some ("Max retries exceeded: " ++ m) ∧
        (send_email_task ctx (some j) env).reraised = false) := by
  constructor
  · intro hlt
    have hr : ¬ ctx.max_retries ≤ ctx.retries := not_le.mpr hlt
    simp only [send_email_task, hs, Bool.false_eq_true, if_false, hg, ho, if_neg hr]
    refine ⟨?_, ?_, ?_, ?_, ?_⟩ <;> first | rfl | trivial
  · intro hge
    simp only [send_email_task, hs, Bool.false_eq_true, if_false, hg, ho, if_pos hge]
    obtain ⟨⟨j2, hj2, hcase⟩, hrer, -⟩ := finishJob_spec ctx env (markProcessing ctx j)
      { markProcessing ctx j with
        status := "failed"
        error_message := some ("Max retries exceeded: " ++ m)
        error_category := some "temporary" }
      "failed" (some ("temporary", m))
    refine ⟨j2, hj2, ?_, ?_, ?_, hrer⟩ <;>
      (rcases hcase with h | h <;> subst h <;> rfl)

/-- A worker environment in which the SMTP server replies 421. -/
def tempEnv : WorkerEnv := { sampleEnv with smtp := .raised (.responseException 421 "busy") }

/-- Fourth-attempt task context (retries exhausted). -/
def exhaustedCtx : TaskCtx := { retries := 3, max_retries := 3, now := 1000 }

/-- Witness for C5: a 421 reply on the first attempt schedules a retry. -/
theorem temporary_failure_retry_policy_witness :
    (send_email_task sampleCtx (some sampleJob) tempEnv).reraised = true ∧
    (send_email_task sampleCtx (some sampleJob) tempEnv).job =
      some { markProcessing sampleCtx sampleJob with
             status := "retry_pending"
             error_message := some "SMTP 421: busy"
             retry_count := sampleJob.retry_count + 1
             next_retry_at := some (1000 + 60 * 2 ^ 0) } ∧
    (∃ j', (send_email_task exhaustedCtx (some sampleJob) tempEnv).job = some j' ∧
      j'.status = "failed" ∧
      j'.error_category = some "temporary" ∧
      j'.error_message = some ("Max retries exceeded: " ++ "SMTP 421: busy") ∧
      (send_email_task exhaustedCtx (some sampleJob) tempEnv).reraised = false) :=
  ⟨((temporary_failure_retry_policy sampleCtx tempEnv sampleJob "SMTP 421: busy"
      rfl rfl rfl).1 (by decide)).2.1,
   ((temporary_failure_retry_policy sampleCtx tempEnv sampleJob "SMTP 421: busy"
      rfl rfl rfl).1 (by decide)).1,
   (temporary_failure_retry_policy exhaustedCtx tempEnv sampleJob "SMTP 421: busy"
      rfl rfl rfl).2 (by decide)⟩

/-! ## C8: webhook only after terminal status -/

/-- If `finishJob` inserted a delivery and the finalized job carried status
`final_status`, the delivery event matches the terminal job status. -/
lemma finishJob_webhook_terminal (ctx : TaskCtx) (env : WorkerEnv) (fc job : EmailJob)
    (fs : String) (ei : Option (String × String)) (d : WebhookDelivery)
    (hjs : job.status = fs)
    (hd : (finishJob ctx env fc job fs ei).delivery = some d) :
    ∃ j', (finishJob ctx env fc job fs ei).job = some j' ∧
      (j'.status = "sent" ∨ j'.status = "failed") ∧
      (d.event_type = "email.sent" → j'.status = "sent") ∧
      (d.event_type = "email.failed" → j'.status = "failed") ∧
      (d.event_type = "email.sent" ∨ d.event_type = "email.failed") := by
  obtain ⟨⟨j2, hj2, hcase⟩, -, hdel⟩ := finishJob_spec ctx env fc job fs ei
  obtain ⟨hfs, hev⟩ := hdel d hd
  have hstat : j2.status = fs := by
    rcases hcase with h | h <;> subst h <;> simpa using hjs
  refine ⟨j2, hj2, ?_, ?_, ?_, ?_⟩
  · rcases hfs with h | h
    · exact Or.inl (by rw [hstat, h])
    · exact Or.inr (by rw [hstat, h])
  · intro hsent
    rcases hfs with h | h
    · rw [hstat, h]
    · subst h
      simp only [show ("failed" == "sent") = false by decide, if_false] at hev
      exact absurd (hev.symm.trans hsent) (by decide)
  · intro hfail
    rcases hfs with h | h
    · subst h
      simp only [show ("sent" == "sent") = true by decide, if_true] at hev
      exact absurd (hev.symm.trans hfail) (by decide)
    · rw [hstat, h]
  · rcases hfs with h | h <;> subst h
    · exact Or.inl (by simpa using hev)
    · exact Or.inr (by simpa using hev)

/-- C8.  A `WebhookDelivery` with event `email.sent` is only created by a
task execution whose final job status is `sent`, one with `email.failed`
only when the final status is `failed`, and no delivery is created in any
non-terminal state (tasks.py lines 221-222, dispatcher lines 51-95). -/
theorem webhook_only_after_terminal (ctx : TaskCtx) (env : WorkerEnv) (jr : Option EmailJob)
    (d : WebhookDelivery)
    (hd : (send_email_task ctx jr env).delivery = some d) :
    ∃ j', (send_email_task ctx jr env).job = some j' ∧
      (j'.status = "sent" ∨ j'.status = "failed") ∧
      (d.event_type = "email.sent" → j'.status = "sent") ∧
      (d.event_type = "email.failed" → j'.status = "failed") ∧
      (d.event_type = "email.sent" ∨ d.event_type = "email.failed") := by
  cases jr with
  | none => simp [send_email_task, TaskOut.earlyReturn] at hd
  | some j =>
    by_cases hs : j.sent_at.isSome = true
    · rw [send_email_task_sent_at_gate ctx env j hs] at hd
      simp [TaskOut.earlyReturn] at hd
    · have hs0 := eq_false_of_ne_true hs
      by_cases hg : staleProcessingGuard ctx j = true
      · simp [send_email_task, hs0, hg, TaskOut.earlyReturn] at hd
      · have hg0 := eq_false_of_ne_true hg
        cases ho : sendAttemptOutcome env (markProcessing ctx j) with
        | sent =>
          simp only [send_email_task, hs0, Bool.false_eq_true, if_false, hg0, ho] at hd ⊢
          exact finishJob_webhook_terminal ctx env (markProcessing ctx j) _ "sent" none d
            rfl hd
        | permanentFailure m =>
          simp only [send_email_task, hs0, Bool.false_eq_true, if_false, hg0, ho] at hd ⊢
          exact finishJob_webhook_terminal ctx env (markProcessing ctx j) _ "failed"
            (some ("permanent", m)) d rfl hd
        | temporaryFailure m =>
          by_cases hr : ctx.max_retries ≤ ctx.retries
          · simp only [send_email_task, hs0, Bool.false_eq_true, if_false, hg0, ho,
              if_pos hr] at hd ⊢
            exact finishJob_webhook_terminal ctx env (markProcessing ctx j) _ "failed"
              (some ("temporary", m)) d rfl hd
          · simp only [send_email_task, hs0, Bool.false_eq_true, if_false, hg0, ho,
              if_neg hr] at hd
            exact absurd hd (by simp)
        | unexpectedError m =>
          simp only [send_email_task, hs0, Bool.false_eq_true, if_false, hg0, ho] at hd ⊢
          exact finishJob_webhook_terminal ctx env (markProcessing ctx j) _ "failed"
            (some ("system", m)) d rfl hd

/-- The delivery row inserted by the sample successful run. -/
def sampleSentDelivery : WebhookDelivery :=
  { id := 20
    email_job_id := 10
    application_id := 1
    tenant_id := 1
    webhook_url := "https://hooks.example.com/w"
    event_type := "email.sent"
    payload :=
      { event := "email.sent"
        timestamp := 1000
        job_id := 10
        tenant_id := 1
        application_id := 1
        service_name := "welcome-svc"
        to_email := "u@example.com"
        subject := "Hi"
        status := "sent"
        sent_at := some 1000
        error_category := none
        error_message := none
        retry_count := 0 }
    status := "pending"
    retry_count := 0
    max_retries := 3
    next_retry_at := none
    last_response_code := none
    last_response_body := none
    last_error := none
    delivered_at := none }

/-- Witness for C8 on the concrete successful run. -/
theorem webhook_only_after_terminal_witness :
    ∃ j', (send_email_task sampleCtx (some sampleJob) sampleEnv).job = some j' ∧
      (j'.status = "sent" ∨ j'.status = "failed") ∧
      (sampleSentDelivery.event_type = "email.sent" → j'.status = "sent") ∧
      (sampleSentDelivery.event_type = "email.failed" → j'.status = "failed") ∧
      (sampleSentDelivery.event_type = "email.sent" ∨
        sampleSentDelivery.event_type = "email.failed") :=
  webhook_only_after_terminal sampleCtx sampleEnv (some sampleJob) sampleSentDelivery rfl

/-! ## C3: intake ordering of commit and enqueue -/

/-- C3 evaluated on the code.  On a fully valid intake request the effect
trace of `validate_and_queue` is add, flush, enqueue, commit — the broker
enqueue happens and no commit precedes it, so the job row is NOT committed
before the task is enqueued (lines 159-182 of the service). -/
theorem intake_enqueue_precedes_commit :
    (validate_and_queue sampleDB "key-1" "welcome-svc" "welcome" "u@example.com"
        renderOk 7 true).trace =
      [.insertJob (newQueuedJob 7 1 1 2 "u@example.com" "Hi" "Hello"), .flushJob,
       .enqueueSendEmail 7, .commitTx] ∧
    ((validate_and_queue sampleDB "key-1" "welcome-svc" "welcome" "u@example.com"
        renderOk 7 true).trace.any IntakeEvent.isEnqueue) = true ∧
    rowCommittedBeforeEnqueue
      (validate_and_queue sampleDB "key-1" "welcome-svc" "welcome" "u@example.com"
        renderOk 7 true).trace = false :=
  ⟨rfl, rfl, rfl⟩

/-! ## C9: intake validation errors -/

/-- C9.  Each validation failure of `validate_and_queue` yields the HTTP
status the source raises (401 invalid key, 400 invalid service, 400 missing
service configuration, 400 missing SMTP account, 404 missing template, 400
render error), and in every such case no `EmailJob` row is created, nothing
is committed, and no task is enqueued (service lines 59-145). -/
theorem intake_validation_rejections (db : DB) (k sn tn te : String)
    (render : String → Except String String) (nid : Nat) (eqok : Bool) :
    (findApplicationByApiKey db k = none →
      validate_and_queue db k sn tn te render nid eqok =
        ⟨.error (401, "Invalid API key"), none, []⟩) ∧
    (∀ app, findApplicationByApiKey db k = some app →
      findActiveService db sn app.tenant_id = none →
      validate_and_queue db k sn tn te render nid eqok =
        ⟨.error (400, "Invalid email service"), none, []⟩) ∧
    (∀ app svc, findApplicationByApiKey db k = some app →
      findActiveService db sn app.tenant_id = some svc →
      findActiveServiceConfig db svc.id app.id = none →
      validate_and_queue db k sn tn te render nid eqok =
        ⟨.error (400, "No active SMTP configuration"), none, []⟩) ∧
    (∀ app svc cfg, findApplicationByApiKey db k = some app →
      findActiveService db sn app.tenant_id = some svc →
      findActiveServiceConfig db svc.id app.id = some cfg →
      findSmtpConfigById db cfg.smtp_configuration_id = none →
      validate_and_queue db k sn tn te render nid eqok =
        ⟨.error (400, "SMTP account details not found"), none, []⟩) ∧
    (∀ app svc cfg smtp, findApplicationByApiKey db k = some app →
      findActiveService db sn app.tenant_id = some svc →
      findActiveServiceConfig db svc.id app.id = some cfg →
      findSmtpConfigById db cfg.smtp_configuration_id = some smtp →
      findTemplate db tn app.tenant_id = none →
      validate_and_queue db k sn tn te render nid eqok =
        ⟨.error (404, "Template not found"), none, []⟩) ∧
    (∀ app svc cfg smtp tpl, findApplicationByApiKey db k = some app →
      findActiveService db sn app.tenant_id = some svc →
      findActiveServiceConfig db svc.id app.id = some cfg →
      findSmtpConfigById db cfg.smtp_configuration_id = some smtp →
      findTemplate db tn app.tenant_id = some tpl →
      ((∃ e, render tpl.subject_template = .error e) ∨
        (∃ e, render tpl.body_template = .error e)) →
      (validate_and_queue db k sn tn te render nid eqok).job = none ∧
      (validate_and_queue db k sn tn te render nid eqok).trace = [] ∧
      ∃ msg, (validate_and_queue db k sn tn te render nid eqok).response =
        .error (400, msg)) := by
  refine ⟨?_, ?_, ?_, ?_, ?_, ?_⟩
  · intro h
    simp [validate_and_queue, h]
  · intro app h1 h2
    simp [validate_and_queue, h1, h2]
  · intro app svc h1 h2 h3
    simp [validate_and_queue, h1, h2, h3]
  · intro app svc cfg h1 h2 h3 h4
    simp [validate_and_queue, h1, h2, h3, h4]
  · intro app svc cfg smtp h1 h2 h3 h4 h5
    simp [validate_and_queue, h1, h2, h3, h4, h5]
  · intro app svc cfg smtp tpl h1 h2 h3 h4 h5 hren
    rcases hren with ⟨e, he⟩ | ⟨e, he⟩
    · simp only [validate_and_queue, h1, h2, h3, h4, h5, he]
      refine ⟨?_, ?_, ⟨"Template rendering error: " ++ e, ?_⟩⟩ <;> first | rfl | trivial
    · rcases hsub : render tpl.subject_template with e2 | s
      · simp only [validate_and_queue, h1, h2, h3, h4, h5, hsub]
        refine ⟨?_, ?_, ⟨"Template rendering error: " ++ e2, ?_⟩⟩ <;> first | rfl | trivial
      · simp only [validate_and_queue, h1, h2, h3, h4, h5, hsub, he]
        refine ⟨?_, ?_, ⟨"Template rendering error: " ++ e, ?_⟩⟩ <;> first | rfl | trivial

/-- Witness for C9: an unknown API key against the empty store is rejected
with 401 and leaves no trace. -/
theorem intake_validation_rejections_witness :
    validate_and_queue emptyDB "nokey" "svc" "tpl" "u@example.com" renderOk 1 true =
      ⟨.error (401, "Invalid API key"), none, []⟩ :=
  (intake_validation_rejections emptyDB "nokey" "svc" "tpl" "u@example.com"
    renderOk 1 true).1 rfl

/-! ## C7: URL snapshot, API key read live -/

/-- C7.  For any pending delivery, the POST of `deliver_webhook_task`
targets `delivery.webhook_url` — the snapshot taken by the dispatcher at
queue time — while the `X-API-Key` header comes from the `Application` row
loaded at delivery time.  Hence two application states agreeing on
`webhook_api_key` (in particular differing arbitrarily in `webhook_url`)
produce identical task behaviour, and a rotated `webhook_api_key` is used
on the next attempt (webhook_tasks.py lines 59-86, dispatcher line 91). -/
theorem webhook_url_snapshot_api_key_live (now : Nat) (d : WebhookDelivery)
    (a a' : Application) (http : HttpOutcome)
    (hd : (d.status == "delivered") = false) :
    (∀ p, (deliver_webhook_task now (some d) (some a) http).posted = some p →
      p.url = d.webhook_url ∧ p.apiKeyHeader = truthyStr a.webhook_api_key) ∧
    (a.webhook_api_key = a'.webhook_api_key →
      deliver_webhook_task now (some d) (some a) http =
        deliver_webhook_task now (some d) (some a') http) ∧
    (∃ p, (deliver_webhook_task now (some d) (some a) http).posted = some p) := by
  refine ⟨?_, ?_, ?_⟩
  · intro p hp
    unfold deliver_webhook_task at hp
    simp only [hd, Bool.false_eq_true, if_false] at hp
    cases http <;> dsimp only at hp <;> try split at hp
    all_goals (injection hp with hp; subst hp; exact ⟨rfl, rfl⟩)
  · intro hk
    unfold deliver_webhook_task
    dsimp only
    rw [hk]
  · unfold deliver_webhook_task
    simp only [hd, Bool.false_eq_true, if_false]
    cases http <;> dsimp only
    case response code body =>
      split <;> exact ⟨_, rfl⟩
    all_goals exact ⟨_, rfl⟩

/-- The same application with the webhook target URL changed. -/
def rotatedApp : Application :=
  { sampleApp with webhook_url := some "https://other.example.com/w2" }

/-- Witness for C7: with the key unchanged, rotating the URL changes
nothing about a concrete delivery attempt, and the attempt does POST. -/
theorem webhook_url_snapshot_api_key_live_witness :
    deliver_webhook_task 50 (some sampleSentDelivery) (some sampleApp)
        (.response 200 "ok") =
      deliver_webhook_task 50 (some sampleSentDelivery) (some rotatedApp)
        (.response 200 "ok") ∧
    ∃ p, (deliver_webhook_task 50 (some sampleSentDelivery) (some sampleApp)
        (.response 200 "ok")).posted = some p :=
  ⟨(webhook_url_snapshot_api_key_live 50 sampleSentDelivery sampleApp rotatedApp
      (.response 200 "ok") rfl).2.1 rfl,
   (webhook_url_snapshot_api_key_live 50 sampleSentDelivery sampleApp rotatedApp
      (.response 200 "ok") rfl).2.2⟩

/-! ## C4: timeout path of the webhook worker -/

/-- C4 evaluated on the code.  A timeout records `last_error` and commits,
but the `WebhookDeliveryError` raised inside the `except
httpx.TimeoutException` clause escapes the `try` statement (sibling
`except` clauses do not catch it): the delivery keeps `retry_count = 0`,
status stays `pending`, and `next_retry_at` is never set — the non-2xx
retry-accounting path is NOT taken (webhook_tasks.py lines 114-118 versus
126-154). -/
theorem webhook_timeout_skips_retry_path :
    (deliver_webhook_task 100 (some sampleSentDelivery) (some sampleApp)
        (.timeoutExc "read timeout")).delivery =
      some { sampleSentDelivery with last_error := some "Timeout: read timeout" } ∧
    (deliver_webhook_task 100 (some sampleSentDelivery) (some sampleApp)
        (.timeoutExc "read timeout")).reraised = true ∧
    (deliver_webhook_task 100 (some sampleSentDelivery) (some sampleApp)
        (.timeoutExc "read timeout")).committed = true ∧
    ∃ d, (deliver_webhook_task 100 (some sampleSentDelivery) (some sampleApp)
        (.timeoutExc "read timeout")).delivery = some d ∧
      d.retry_count = sampleSentDelivery.retry_count ∧
      d.status = "pending" ∧
      d.next_retry_at = none :=
  ⟨rfl, rfl, rfl, ⟨_, rfl, rfl, rfl, rfl⟩⟩

/-! ## C10: unexpected webhook exceptions are terminal -/

/-- C10.  Any exception during delivery other than an httpx timeout, an
httpx request error, or the `WebhookDeliveryError` raised for a non-2xx
response hits the final `except Exception` clause: the delivery is marked
`failed` with `last_error` set and committed, `retry_count` and
`next_retry_at` are untouched, and nothing is re-raised, so the delivery is
never retried (webhook_tasks.py lines 156-161). -/
theorem unexpected_webhook_error_no_retry (now : Nat) (d : WebhookDelivery)
    (app : Option Application) (m : String)
    (hd : (d.status == "delivered") = false) :
    ∃ d', (deliver_webhook_task now (some d) app (.otherExc m)).delivery = some d' ∧
      d'.status = "failed" ∧
      d'.last_error = some ("Unexpected: " ++ m) ∧
      d'.retry_count = d.retry_count ∧
      d'.next_retry_at = d.next_retry_at ∧
      (deliver_webhook_task now (some d) app (.otherExc m)).reraised = false ∧
      (deliver_webhook_task now (some d) app (.otherExc m)).committed = true := by
  unfold deliver_webhook_task
  simp only [hd, Bool.false_eq_true, if_false]
  refine ⟨{ d with status := "failed", last_error := some ("Unexpected: " ++ m) },
    ?_, ?_, ?_, ?_, ?_, ?_, ?_⟩ <;> first | rfl | trivial

/-- Witness for C10 on a concrete pending delivery. -/
theorem unexpected_webhook_error_no_retry_witness :
    ∃ d', (deliver_webhook_task 60 (some sampleSentDelivery) (some sampleApp)
        (.otherExc "boom")).delivery = some d' ∧
      d'.status = "failed" ∧
      d'.last_error = some ("Unexpected: " ++ "boom") ∧
      d'.retry_count = sampleSentDelivery.retry_count ∧
      d'.next_retry_at = sampleSentDelivery.next_retry_at ∧
      (deliver_webhook_task 60 (some sampleSentDelivery) (some sampleApp)
        (.otherExc "boom")).reraised = false ∧
      (deliver_webhook_task 60 (some sampleSentDelivery) (some sampleApp)
        (.otherExc "boom")).committed = true :=
  unexpected_webhook_error_no_retry 60 sampleSentDelivery (some sampleApp) "boom" rfl

end EaseEmail
